import Mathlib

/-!
Shallow embedding of the `neuro` process-handler
(`src/desktop/apps/process-handler/src/process_handler.cpp` and its header),
together with theorems checking the natural-language specification against it.

Modelling conventions:
* C++ `std::string` is Lean `String`; `std::string::length()` (a byte count)
  is `String.utf8ByteSize`.
* C++ `std::map` is an association list with the member functions `find`,
  `operator[]`-update and insertion embedded as `mfind` / `mset`; only
  lookup and value-update semantics are used by the theorems, so key
  ordering of `std::map` is immaterial and not modelled.
* The out-parameter `std::string& error` of `validate_message` is embedded
  by returning `Option String`: `none` models `return true` (error left
  untouched), `some e` models `return false` with `error = e`.
* OS effects (fork/exec, kill, sleeps, pipes, threads) are not observable in
  the process table except through the fields the code assigns; the spawn
  outcome of `fork` and the pid of the child are passed in as explicit
  parameters (`spawnOk`, `newPid`), and sleeps are no-ops on the table.
* Each public `ProcessManager` operation holds `manager_mutex` for its whole
  body in the C++ code, so each is embedded as one atomic function on the
  manager state; transient states written and then overwritten inside one
  critical section (`STARTING`, `STOPPING`) do not appear in the final state
  of the atomic step, mirroring what any other lock-respecting observer of
  the table can see.
-/

namespace Neuro

/-- Embeds `enum class MessageType` (header, lines 46-53), in declaration
order `COMMAND, RESPONSE, EVENT, HEARTBEAT, SHUTDOWN, ERROR`. -/
inductive MessageType where
  | COMMAND
  | RESPONSE
  | EVENT
  | HEARTBEAT
  | SHUTDOWN
  | ERROR
deriving DecidableEq

/-- Embeds `static_cast<int>(type)` on `MessageType`: C++ assigns the
enumerators the consecutive ordinals 0..5 in declaration order. -/
def MessageType.toNat : MessageType → Nat
  | .COMMAND => 0
  | .RESPONSE => 1
  | .EVENT => 2
  | .HEARTBEAT => 3
  | .SHUTDOWN => 4
  | .ERROR => 5

/-- Embeds `struct Message` (header, lines 56-67). `uint64_t timestamp` is a
`Nat` (the encoder only prints it in decimal, so wrap-around never matters
here). -/
structure Message where
  type : MessageType
  source_process : String
  target_process : String
  command : String
  data : String
  timestamp : Nat
  message_id : String
deriving DecidableEq

/-- Embeds `Message::to_json` (process_handler.cpp, lines 28-40): the exact
string the `ostringstream` accumulates, field by field.  Note the source
writes the `type` ordinal wrapped in double quotes (`"type":"0"`), while
`data` and `timestamp` are written unquoted. -/
def Message.to_json (m : Message) : String :=
  "\x7b" ++
  "\"type\":\"" ++ toString (MessageType.toNat m.type) ++ "\"," ++
  "\"source\":\"" ++ m.source_process ++ "\"," ++
  "\"target\":\"" ++ m.target_process ++ "\"," ++
  "\"command\":\"" ++ m.command ++ "\"," ++
  "\"data\":" ++ m.data ++ "," ++
  "\"timestamp\":" ++ toString m.timestamp ++ "," ++
  "\"message_id\":\"" ++ m.message_id ++ "\"" ++
  "\x7d"

/-- Embeds `Message::from_json` (process_handler.cpp, lines 42-47).  The
source is a stub: it ignores its input and returns a default-constructed
`Message` (the `TODO` comment admits parsing is unimplemented).  A
default-constructed C++ `Message` has empty `std::string` fields; its `type`
and `timestamp` scalars are left uninitialized (indeterminate), modelled
here by the fixed values `COMMAND` and `0` — no theorem below depends on
those two fields of the result. -/
def Message.from_json (_json : String) : Message :=
  { type := MessageType.COMMAND
    source_process := ""
    target_process := ""
    command := ""
    data := ""
    timestamp := 0
    message_id := "" }

/-- Embeds the payload line of `StdioChannel::send` (process_handler.cpp,
lines 159-169): `std::string json = msg.to_json() + "\n";` — the bytes the
channel writes to the child's stdin pipe. -/
def StdioChannel.send_line (m : Message) : String :=
  m.to_json ++ "\n"

/-- Embeds `MessageValidator::is_safe_json` (process_handler.cpp, lines
255-263): rejects iff the byte length exceeds `1024 * 1024`; the announced
JSON validation is a `TODO` and every size-admissible string passes. -/
def MessageValidator.is_safe_json (json : String) : Bool :=
  if json.utf8ByteSize > 1024 * 1024 then false else true

/-- Embeds `MessageValidator::validate_message` (process_handler.cpp, lines
231-253). `none` = the C++ function returns `true`; `some e` = it returns
`false` after assigning `error = e`. -/
def MessageValidator.validate_message (m : Message) : Option String :=
  if m.source_process = "" then some "Source process is empty"
  else if m.target_process = "" then some "Target process is empty"
  else if m.command = "" then some "Command is empty"
  else if MessageValidator.is_safe_json m.data then none
  else some "Invalid JSON data"

/-- Embeds `MessageRouter`'s handler table
`std::map<std::string, std::vector<std::function<void(const Message&)>>>`
(header, line 177).  Handlers are opaque callables; they are represented by
an arbitrary type `α` so dispatch can be observed as the sequence of calls
made. -/
structure MessageRouter (α : Type) where
  handlers : List (String × List α)
deriving DecidableEq

/-- Embeds a freshly constructed `MessageRouter` (empty handler table). -/
def MessageRouter.empty {α : Type} : MessageRouter α :=
  ⟨[]⟩

/-- Embeds `handlers[command].push_back(handler)`: `std::map::operator[]`
default-constructs an empty vector for a missing key, then the handler is
appended at the back. -/
def addHandler {α : Type} : List (String × List α) → String → α → List (String × List α)
  | [], k, h => [(k, [h])]
  | (k', hs) :: rest, k, h =>
    if k' = k then (k', hs ++ [h]) :: rest
    else (k', hs) :: addHandler rest k h

/-- Embeds `MessageRouter::register_handler` (process_handler.cpp, lines
274-278). -/
def MessageRouter.register_handler {α : Type} (r : MessageRouter α) (command : String)
    (handler : α) : MessageRouter α :=
  ⟨addHandler r.handlers command handler⟩

/-- Embeds `std::map::find` on the handler table. -/
def findHandlers {α : Type} : List (String × List α) → String → Option (List α)
  | [], _ => none
  | (k', hs) :: rest, k => if k' = k then some hs else findHandlers rest k

/-- Embeds `MessageRouter::route_message` (process_handler.cpp, lines
280-289) observationally: the result is the sequence of handler invocations
`handler(msg)` the loop performs, in loop order; a missing command performs
none. -/
def MessageRouter.route_message {α : Type} (r : MessageRouter α) (msg : Message) :
    List (α × Message) :=
  match findHandlers r.handlers msg.command with
  | none => []
  | some hs => hs.map (fun h => (h, msg))

/-- Embeds `enum class ProcessType` (header, lines 17-23); a pure tag. -/
inductive ProcessType where
  | RUST_MAIN
  | GO_INTEGRATION
  | PYTHON_CONTROLLER
  | FRONTEND_SERVER
  | CUSTOM
deriving DecidableEq

/-- Embeds `enum class CommMethod` (header, lines 26-32); a pure tag. -/
inductive CommMethod where
  | STDIO
  | FILE_IPC
  | NAMED_PIPE
  | SHARED_MEMORY
  | TCP_SOCKET
deriving DecidableEq

/-- Embeds `enum class ProcessState` (header, lines 35-43). -/
inductive ProcessState where
  | CREATED
  | STARTING
  | RUNNING
  | STOPPING
  | STOPPED
  | CRASHED
  | ZOMBIE
deriving DecidableEq

/-- Embeds `struct ProcessConfig` (header, lines 70-90), field for field and
in declaration order.  `int max_restart_attempts` is an `Int` as in C++;
the three `std::chrono::seconds` durations are second counts (`Nat`), used
only as data here since sleeps do not change the table. -/
structure ProcessConfig where
  type : ProcessType
  name : String
  executable_path : String
  args : List String
  env_vars : List (String × String)
  comm_methods : List CommMethod
  auto_restart : Bool
  max_restart_attempts : Int
  restart_delay : Nat
  enable_heartbeat : Bool
  heartbeat_interval : Nat
  heartbeat_timeout : Nat
  depends_on : List String
deriving DecidableEq

/-- Embeds `struct ProcessInfo` (header, lines 93-102).  The opaque
`void* platform_handle` and the two `time_point` fields are omitted: no
branch of the embedded operations reads them (heartbeat timing lives in the
monitor thread, whose crash outcome enters the model through
`handle_process_crash`). `int restart_count` is an `Int` as in C++. -/
structure ProcessInfo where
  config : ProcessConfig
  state : ProcessState
  pid : Nat
  restart_count : Int
  last_error : String
deriving DecidableEq

/-- Embeds the supervisor state visible through the public `ProcessManager`
accessors: the process table
`std::map<std::string, ProcessInfo> processes` (header, line 190).  The
channel table, the router and the mutex do not interact with any process
lifecycle operation modelled here. -/
structure ProcessManager where
  processes : List (String × ProcessInfo)
deriving DecidableEq

/-- Embeds a freshly constructed `ProcessManager` (empty table). -/
def ProcessManager.fresh : ProcessManager :=
  ⟨[]⟩

/-- Embeds `processes.find(name)` on the table (`end()` becomes `none`). -/
def mfind : List (String × ProcessInfo) → String → Option ProcessInfo
  | [], _ => none
  | (k, v) :: rest, name => if k = name then some v else mfind rest name

/-- Embeds writing through an existing map entry (`it->second = ...` or
mutating `auto& info = it->second;`), with insertion at the end when the key
is absent (as `processes[config.name] = info` inserts). -/
def mset : List (String × ProcessInfo) → String → ProcessInfo → List (String × ProcessInfo)
  | [], name, v => [(name, v)]
  | (k, w) :: rest, name, v =>
    if k = name then (k, v) :: rest
    else (k, w) :: mset rest name v

/-- Embeds `ProcessManager::register_process` (process_handler.cpp, lines
308-348): duplicate names are rejected; otherwise a record in state
`CREATED` with `pid = 0` (and the default `restart_count = 0`,
`last_error = ""`) is inserted.  The channel-creation loop at lines 324-344
touches only the channel table and is not part of the modelled state. -/
def ProcessManager.register_process (pm : ProcessManager) (config : ProcessConfig) :
    Bool × ProcessManager :=
  match mfind pm.processes config.name with
  | some _ => (false, pm)
  | none =>
    (true, ⟨mset pm.processes config.name
      { config := config
        state := ProcessState.CREATED
        pid := 0
        restart_count := 0
        last_error := "" }⟩)

/-- Embeds `ProcessManager::check_dependencies_ready` (process_handler.cpp,
lines 455-463): every name in `depends_on` must be found in the table and be
in state `RUNNING`. -/
def ProcessManager.check_dependencies_ready (pm : ProcessManager) (config : ProcessConfig) :
    Bool :=
  config.depends_on.all (fun dep =>
    match mfind pm.processes dep with
    | some i => if i.state = ProcessState.RUNNING then true else false
    | none => false)

/-- Embeds `ProcessManager::spawn_process` (process_handler.cpp, lines
350-419) on the POSIX path.  Whether `fork` succeeds is the environment's
choice, passed in as `spawnOk`, and the child pid as `newPid`; on success
the record becomes `RUNNING` with the new pid, on failure `last_error` is
set to `"Fork failed"` and the record is otherwise untouched. -/
def ProcessManager.spawn_process (info : ProcessInfo) (spawnOk : Bool) (newPid : Nat) :
    Bool × ProcessInfo :=
  if spawnOk then
    (true, { info with state := ProcessState.RUNNING, pid := newPid })
  else
    (false, { info with last_error := "Fork failed" })

/-- Embeds `ProcessManager::start_process` (process_handler.cpp, lines
421-453): unknown name fails; unready dependencies fail (before any state
write); otherwise the record passes through `STARTING` into `spawn_process`,
ending `RUNNING` on spawn success and `CRASHED` on spawn failure.  Note the
source checks `check_dependencies_ready` but never the process's own current
state.  The detached monitor thread it launches enters the model only
through `handle_process_crash`. -/
def ProcessManager.start_process (pm : ProcessManager) (name : String) (spawnOk : Bool)
    (newPid : Nat) : Bool × ProcessManager :=
  match mfind pm.processes name with
  | none => (false, pm)
  | some info =>
    if pm.check_dependencies_ready info.config then
      let info₁ := { info with state := ProcessState.STARTING }
      let spawned := ProcessManager.spawn_process info₁ spawnOk newPid
      if spawned.1 then
        (true, ⟨mset pm.processes name spawned.2⟩)
      else
        (false, ⟨mset pm.processes name { spawned.2 with state := ProcessState.CRASHED }⟩)
    else (false, pm)

/-- Embeds `ProcessManager::stop_process` (process_handler.cpp, lines
522-557): unknown name fails; otherwise the record passes through
`STOPPING`, the child is signalled (an OS effect outside the table), and the
record ends `STOPPED` with `pid = 0`; `restart_count` is untouched. -/
def ProcessManager.stop_process (pm : ProcessManager) (name : String) (_force : Bool) :
    Bool × ProcessManager :=
  match mfind pm.processes name with
  | none => (false, pm)
  | some info =>
    (true, ⟨mset pm.processes name
      { info with state := ProcessState.STOPPED, pid := 0 }⟩)

/-- Embeds `ProcessManager::restart_process` (process_handler.cpp, lines
559-563): graceful stop, a 500 ms sleep (no table effect), then start.
No field of the record other than those written by `stop_process` and
`start_process` is touched — in particular `restart_count` is not. -/
def ProcessManager.restart_process (pm : ProcessManager) (name : String) (spawnOk : Bool)
    (newPid : Nat) : Bool × ProcessManager :=
  let stopped := pm.stop_process name false
  stopped.2.start_process name spawnOk newPid

/-- Embeds `ProcessManager::handle_process_crash` (process_handler.cpp,
lines 509-520): mark the record `CRASHED`; then, if `auto_restart` is set
and `restart_count < max_restart_attempts`, sleep `restart_delay` and call
`restart_process`.  The monitor loop (lines 465-507) only calls this for a
name present in the table, so the absent case (where C++ `operator[]` would
default-insert) is modelled as a no-op. -/
def ProcessManager.handle_process_crash (pm : ProcessManager) (name : String) (spawnOk : Bool)
    (newPid : Nat) : ProcessManager :=
  match mfind pm.processes name with
  | none => pm
  | some info =>
    let pm₁ : ProcessManager := ⟨mset pm.processes name { info with state := ProcessState.CRASHED }⟩
    if info.config.auto_restart && info.restart_count < info.config.max_restart_attempts then
      (pm₁.restart_process name spawnOk newPid).2
    else pm₁

/-- Embeds one `for (auto& [name, info] : processes)` pass of
`ProcessManager::start_all` (process_handler.cpp, lines 565-579) over the
listed keys: each process currently in `CREATED` whose dependencies are
ready is started, and the pass reports whether it made progress.  Key set
and key order are stable across the pass because `start_process` only
updates values. -/
def ProcessManager.start_all_pass (pm : ProcessManager) (names : List String)
    (okF : String → Bool) (pidF : String → Nat) : Bool × ProcessManager :=
  match names with
  | [] => (false, pm)
  | n :: rest =>
    match mfind pm.processes n with
    | some info =>
      if info.state = ProcessState.CREATED ∧ pm.check_dependencies_ready info.config then
        let pm₁ := (pm.start_process n (okF n) (pidF n)).2
        (true, (pm₁.start_all_pass rest okF pidF).2)
      else pm.start_all_pass rest okF pidF
    | none => pm.start_all_pass rest okF pidF

/-- Embeds the outer `while (progress)` loop of `ProcessManager::start_all`.
The C++ loop terminates because every progressing pass strictly shrinks the
set of `CREATED` records; the fuel `processes.length + 1` therefore covers
every pass the C++ loop can perform, including the final no-progress pass. -/
def ProcessManager.start_all_loop : Nat → ProcessManager → (String → Bool) → (String → Nat) →
    ProcessManager
  | 0, pm, _, _ => pm
  | fuel + 1, pm, okF, pidF =>
    let pass := pm.start_all_pass (pm.processes.map Prod.fst) okF pidF
    if pass.1 then ProcessManager.start_all_loop fuel pass.2 okF pidF else pass.2

/-- Embeds `ProcessManager::start_all` (process_handler.cpp, lines 565-579);
`okF`/`pidF` supply each spawn's fork outcome and child pid by name. -/
def ProcessManager.start_all (pm : ProcessManager) (okF : String → Bool)
    (pidF : String → Nat) : ProcessManager :=
  ProcessManager.start_all_loop (pm.processes.length + 1) pm okF pidF

/-- Embeds `ProcessManager::get_process_state` (process_handler.cpp, lines
624-628): the record's state when the name is found, `STOPPED` otherwise. -/
def ProcessManager.get_process_state (pm : ProcessManager) (name : String) : ProcessState :=
  match mfind pm.processes name with
  | some info => info.state
  | none => ProcessState.STOPPED

/-- Derived observer: `true` iff `name` is in the table in state `RUNNING`. -/
def ProcessManager.runningB (pm : ProcessManager) (name : String) : Bool :=
  match mfind pm.processes name with
  | some i => if i.state = ProcessState.RUNNING then true else false
  | none => false

/-- Derived observer: the dependency check of the record registered under
`name`, vacuously `true` for an absent name. -/
def ProcessManager.depsReadyB (pm : ProcessManager) (name : String) : Bool :=
  match mfind pm.processes name with
  | some i => pm.check_dependencies_ready i.config
  | none => true

/-- Derived observer: the registered record's state, `none` for an absent
name (unlike `get_process_state`, which folds absence into `STOPPED`). -/
def ProcessManager.stateOf (pm : ProcessManager) (name : String) : Option ProcessState :=
  (mfind pm.processes name).map (fun i => i.state)

/-- Derived observer: the registered record's `restart_count`. -/
def ProcessManager.restartCountOf (pm : ProcessManager) (name : String) : Option Int :=
  (mfind pm.processes name).map (fun i => i.restart_count)

/-- Derived observer: the registered record's `pid`. -/
def ProcessManager.pidOf (pm : ProcessManager) (name : String) : Option Nat :=
  (mfind pm.processes name).map (fun i => i.pid)

/-- Helper for the specification-side encoders: a JSON string literal. -/
def jstr (s : String) : String :=
  "\"" ++ s ++ "\""

/-- Helper for the specification-side encoders: one `"key":value` member. -/
def jfield (key value : String) : String :=
  jstr key ++ ":" ++ value

/-- Follows the specification's words (§4.A and §6): newline-terminated JSON
object with members `type, source, target, command, data, timestamp,
message_id` in order, where `type` is the unquoted integer ordinal of the
kind, `data` is inlined as a raw JSON value, and the string fields are
quoted.  Stated only to be compared against the source encoder. -/
def encode_spec (m : Message) : String :=
  "\x7b" ++ String.intercalate ","
    [ jfield "type" (toString (MessageType.toNat m.type)),
      jfield "source" (jstr m.source_process),
      jfield "target" (jstr m.target_process),
      jfield "command" (jstr m.command),
      jfield "data" m.data,
      jfield "timestamp" (toString m.timestamp),
      jfield "message_id" (jstr m.message_id) ] ++ "\x7d" ++ "\n"

/-- Follows the specification's wire format amended at exactly one point:
the `type` member carries the integer ordinal wrapped in double quotes
(`"type":"<int>"`), which is what the source encoder actually emits; every
other member is as in `encode_spec`. -/
def encode_spec_quoted (m : Message) : String :=
  "\x7b" ++ String.intercalate ","
    [ jfield "type" (jstr (toString (MessageType.toNat m.type))),
      jfield "source" (jstr m.source_process),
      jfield "target" (jstr m.target_process),
      jfield "command" (jstr m.command),
      jfield "data" m.data,
      jfield "timestamp" (toString m.timestamp),
      jfield "message_id" (jstr m.message_id) ] ++ "\x7d" ++ "\n"

/-- Concrete valid envelope used by the envelope-level theorems: all three
routing strings non-empty and the payload is the literal empty JSON
object. -/
def sample_msg : Message :=
  ⟨MessageType.COMMAND, "a", "b", "c", "\x7b\x7d", 1, "m1"⟩

/-- Variant of `sample_msg` whose command is `"pong"`, used to exercise
dispatch of a command with no registered handler. -/
def pong_msg : Message :=
  ⟨MessageType.COMMAND, "a", "b", "pong", "\x7b\x7d", 1, "m2"⟩

/-- Variant of `sample_msg` whose command is `"ping"`. -/
def ping_msg : Message :=
  ⟨MessageType.COMMAND, "a", "b", "ping", "\x7b\x7d", 1, "m3"⟩

/-- An ASCII payload of exactly `n` bytes. -/
def bigdata (n : Nat) : String :=
  String.mk (List.replicate n 'x')

/-- A message with non-empty `source`, `target` and `command` and an `n`-byte
payload, used at the 1 MiB validation boundary. -/
def sized_msg (n : Nat) : Message :=
  ⟨MessageType.COMMAND, "a", "b", "c", bigdata n, 0, "i"⟩

/-- A concrete `ProcessConfig` with everything irrelevant to the claims held
fixed: a `CUSTOM` process with the given name, restart policy and
dependencies. -/
def testConfig (name : String) (deps : List String) (auto : Bool) (maxr : Int) : ProcessConfig :=
  ⟨ProcessType.CUSTOM, name, "./x", [], [], [], auto, maxr, 5, false, 5, 15, deps⟩

/-- Crash-loop scenario of the specification's scenario 2: a manager holding
one process `X` with `auto_restart = true` and `max_restart_attempts = 2`,
just registered. -/
def pmX0 : ProcessManager :=
  (ProcessManager.fresh.register_process (testConfig "X" [] true 2)).2

/-- The crash-loop scenario after `start_process("X")` succeeded (pid 1). -/
def pmX1 : ProcessManager :=
  (pmX0.start_process "X" true 1).2

/-- The crash-loop scenario after the first monitor-detected crash; the
crash handler restarts `X` (pid 2). -/
def pmX2 : ProcessManager :=
  pmX1.handle_process_crash "X" true 2

/-- The crash-loop scenario after the second crash (restart gives pid 3). -/
def pmX3 : ProcessManager :=
  pmX2.handle_process_crash "X" true 3

/-- The crash-loop scenario after the third crash (restart gives pid 4);
with `max_restart_attempts = 2` the claim expects this state to be terminal
`Crashed` with `restart_count = 2`. -/
def pmX4 : ProcessManager :=
  pmX3.handle_process_crash "X" true 4

/-- Double-start scenario: one dependency-free process `p`, registered and
started once (pid 1), so it is `RUNNING`. -/
def pmP1 : ProcessManager :=
  ((ProcessManager.fresh.register_process (testConfig "p" [] true 3)).2.start_process
    "p" true 1).2

/-- Dependency-ordering scenario: `A` with no dependencies and `B` with
`depends_on = [A]`, both registered and still `CREATED`. -/
def pmAB : ProcessManager :=
  ((ProcessManager.fresh.register_process (testConfig "A" [] true 3)).2.register_process
    (testConfig "B" ["A"] true 3)).2

/-- The dependency-ordering scenario after `start_all` with every spawn
succeeding (all pids 7). -/
def pmABpost : ProcessManager :=
  pmAB.start_all (fun _ => true) (fun _ => 7)

/-- Verification relation between an earlier and a later manager state along
the startup operations: the set of `RUNNING` processes only grows, every
record persists with an unchanged config, and a process `RUNNING` later but
not earlier has a true dependency check in the later state. -/
def Evolves (a b : ProcessManager) : Prop :=
  (∀ q, a.runningB q = true → b.runningB q = true) ∧
  (∀ q i, mfind a.processes q = some i →
    ∃ i', mfind b.processes q = some i' ∧ i'.config = i.config) ∧
  (∀ q, b.runningB q = true → a.runningB q = true ∨ b.depsReadyB q = true)

/-! Helper lemmas about the embedded definitions. -/

/-- An `n`-fold repetition of the one-byte character `x` has byte length
`n`. -/
theorem bigdata_utf8ByteSize (n : Nat) : (bigdata n).utf8ByteSize = n := by
  have go_cons : ∀ (c : Char) (cs : List Char),
      String.utf8ByteSize.go (c :: cs) = String.utf8ByteSize.go cs + c.utf8Size :=
    fun _ _ => rfl
  have base : ∀ l, (String.mk l).utf8ByteSize = String.utf8ByteSize.go l := fun _ => rfl
  have hx : Char.utf8Size 'x' = 1 := by decide
  unfold bigdata
  induction n with
  | zero => rfl
  | succ k ih =>
    rw [base] at ih ⊢
    rw [List.replicate_succ, go_cons, ih, hx]

/-- Looking up the key just written by `mset` yields the written record. -/
theorem mfind_mset_self (l : List (String × ProcessInfo)) (n : String) (v : ProcessInfo) :
    mfind (mset l n v) n = some v := by
  induction l with
  | nil => simp [mset, mfind]
  | cons kv rest ih =>
    obtain ⟨k, w⟩ := kv
    by_cases h : k = n <;> simp [mset, mfind, h, ih]

/-- Writing one key through `mset` leaves every other lookup unchanged. -/
theorem mfind_mset_ne (l : List (String × ProcessInfo)) (n p : String) (v : ProcessInfo)
    (h : p ≠ n) : mfind (mset l n v) p = mfind l p := by
  induction l with
  | nil =>
    simp [mset, mfind, Ne.symm h]
  | cons kv rest ih =>
    obtain ⟨k, w⟩ := kv
    by_cases hk : k = n
    · subst hk
      simp [mset, mfind, Ne.symm h]
    · simp [mset, mfind, hk, ih]

/-- Characterization of the `runningB` observer by table lookup. -/
theorem runningB_iff (pm : ProcessManager) (q : String) :
    pm.runningB q = true ↔
      ∃ i, mfind pm.processes q = some i ∧ i.state = ProcessState.RUNNING := by
  unfold ProcessManager.runningB
  cases h : mfind pm.processes q with
  | none => simp
  | some i => by_cases hs : i.state = ProcessState.RUNNING <;> simp [hs]

/-- The dependency check is the conjunction of `runningB` over `depends_on`. -/
theorem check_deps_eq_all (pm : ProcessManager) (cfg : ProcessConfig) :
    pm.check_dependencies_ready cfg = cfg.depends_on.all (fun d => pm.runningB d) := rfl

/-- The dependency check is monotone in the set of `RUNNING` processes. -/
theorem check_deps_mono (a b : ProcessManager) (cfg : ProcessConfig)
    (hmono : ∀ q, a.runningB q = true → b.runningB q = true)
    (h : a.check_dependencies_ready cfg = true) :
    b.check_dependencies_ready cfg = true := by
  rw [check_deps_eq_all] at h ⊢
  rw [List.all_eq_true] at h ⊢
  exact fun d hd => hmono d (h d hd)

/-- Equation lemma: `start_process` on an unregistered name is a failing
no-op. -/
theorem start_process_not_found (pm : ProcessManager) (name : String) (ok : Bool) (pid : Nat)
    (hf : mfind pm.processes name = none) :
    pm.start_process name ok pid = (false, pm) := by
  simp [ProcessManager.start_process, hf]

/-- Equation lemma: `start_process` with an unready dependency is a failing
no-op. -/
theorem start_process_deps_not_ready (pm : ProcessManager) (name : String) (ok : Bool)
    (pid : Nat) (info : ProcessInfo) (hf : mfind pm.processes name = some info)
    (hd : pm.check_dependencies_ready info.config = false) :
    pm.start_process name ok pid = (false, pm) := by
  simp [ProcessManager.start_process, hf, hd]

/-- Equation lemma: `start_process` with ready dependencies and a successful
spawn sets the record `RUNNING` with the new pid. -/
theorem start_process_spawn_ok (pm : ProcessManager) (name : String) (pid : Nat)
    (info : ProcessInfo) (hf : mfind pm.processes name = some info)
    (hd : pm.check_dependencies_ready info.config = true) :
    pm.start_process name true pid =
      (true, ⟨mset pm.processes name
        ⟨info.config, ProcessState.RUNNING, pid, info.restart_count, info.last_error⟩⟩) := by
  simp [ProcessManager.start_process, hf, hd, ProcessManager.spawn_process]

/-- Equation lemma: `start_process` with ready dependencies and a failing
spawn sets the record `CRASHED` and records the fork error. -/
theorem start_process_spawn_fail (pm : ProcessManager) (name : String) (pid : Nat)
    (info : ProcessInfo) (hf : mfind pm.processes name = some info)
    (hd : pm.check_dependencies_ready info.config = true) :
    pm.start_process name false pid =
      (false, ⟨mset pm.processes name
        ⟨info.config, ProcessState.CRASHED, info.pid, info.restart_count, "Fork failed"⟩⟩) := by
  simp [ProcessManager.start_process, hf, hd, ProcessManager.spawn_process]

/-- The `Evolves` relation is reflexive. -/
theorem evolves_refl (a : ProcessManager) : Evolves a a :=
  ⟨fun _ h => h, fun _ i h => ⟨i, h, rfl⟩, fun _ h => Or.inl h⟩

/-- The `Evolves` relation is transitive. -/
theorem evolves_trans (a b c : ProcessManager) (hab : Evolves a b) (hbc : Evolves b c) :
    Evolves a c := by
  obtain ⟨m₁, c₁, n₁⟩ := hab
  obtain ⟨m₂, c₂, n₂⟩ := hbc
  refine ⟨fun q h => m₂ q (m₁ q h), fun q i h => ?_, fun q h => ?_⟩
  · obtain ⟨i', hb, hcfg⟩ := c₁ q i h
    obtain ⟨i'', hc, hcfg'⟩ := c₂ q i' hb
    exact ⟨i'', hc, hcfg'.trans hcfg⟩
  · rcases n₂ q h with hb | hdeps
    · rcases n₁ q hb with ha | hdb
      · exact Or.inl ha
      · right
        obtain ⟨i, hfb, -⟩ := (runningB_iff b q).mp hb
        unfold ProcessManager.depsReadyB at hdb ⊢
        rw [hfb] at hdb
        obtain ⟨i', hfc, hcfg⟩ := c₂ q i hfb
        rw [hfc]
        show c.check_dependencies_ready i'.config = true
        rw [hcfg]
        exact check_deps_mono b c i.config m₂ hdb
    · exact Or.inr hdeps

/-- A `start_process` step on a process that is absent or still `CREATED`
satisfies `Evolves`: it can only add the started process to the `RUNNING`
set, and only after its own dependency check passed. -/
theorem evolves_start (pm : ProcessManager) (name : String) (ok : Bool) (pid : Nat)
    (hc : ∀ i, mfind pm.processes name = some i → i.state = ProcessState.CREATED) :
    Evolves pm (pm.start_process name ok pid).2 := by
  unfold ProcessManager.start_process
  cases hf : mfind pm.processes name with
  | none => exact evolves_refl pm
  | some info =>
    have hcreated := hc info hf
    by_cases hd : pm.check_dependencies_ready info.config
    case neg =>
      simp only [hd, Bool.false_eq_true, if_false]
      exact evolves_refl pm
    case pos =>
      have hnotrun : pm.runningB name = false := by
        unfold ProcessManager.runningB
        rw [hf]
        show (if info.state = ProcessState.RUNNING then true else false) = false
        rw [hcreated]
        simp
      cases ok with
      | false =>
        simp only [hd, if_true, ProcessManager.spawn_process, Bool.false_eq_true, if_false]
        refine ⟨?_, ?_, ?_⟩
        · intro q hq
          by_cases hqn : q = name
          · subst hqn
            rw [hnotrun] at hq
            exact absurd hq (by simp)
          · rw [runningB_iff] at hq ⊢
            obtain ⟨i, hfi, hsi⟩ := hq
            exact ⟨i, by rw [mfind_mset_ne _ _ _ _ hqn]; exact hfi, hsi⟩
        · intro q i hqi
          by_cases hqn : q = name
          · subst hqn
            rw [hf] at hqi
            cases hqi
            exact ⟨_, mfind_mset_self _ _ _, rfl⟩
          · exact ⟨i, by rw [mfind_mset_ne _ _ _ _ hqn]; exact hqi, rfl⟩
        · intro q hq
          by_cases hqn : q = name
          · subst hqn
            rw [runningB_iff] at hq
            obtain ⟨i, hfi, hsi⟩ := hq
            rw [mfind_mset_self] at hfi
            cases hfi
            exact absurd hsi (by simp)
          · left
            rw [runningB_iff] at hq ⊢
            obtain ⟨i, hfi, hsi⟩ := hq
            rw [mfind_mset_ne _ _ _ _ hqn] at hfi
            exact ⟨i, hfi, hsi⟩
      | true =>
        simp only [hd, if_true, ProcessManager.spawn_process]
        have hmono : ∀ q, pm.runningB q = true →
            (ProcessManager.mk (mset pm.processes name
              { config := info.config, state := ProcessState.RUNNING, pid := pid,
                restart_count := info.restart_count,
                last_error := info.last_error })).runningB q = true := by
          intro q hq
          by_cases hqn : q = name
          · subst hqn
            rw [hnotrun] at hq
            exact absurd hq (by simp)
          · rw [runningB_iff] at hq ⊢
            obtain ⟨i, hfi, hsi⟩ := hq
            exact ⟨i, by rw [mfind_mset_ne _ _ _ _ hqn]; exact hfi, hsi⟩
        refine ⟨hmono, ?_, ?_⟩
        · intro q i hqi
          by_cases hqn : q = name
          · subst hqn
            rw [hf] at hqi
            cases hqi
            exact ⟨_, mfind_mset_self _ _ _, rfl⟩
          · exact ⟨i, by rw [mfind_mset_ne _ _ _ _ hqn]; exact hqi, rfl⟩
        · intro q hq
          by_cases hqn : q = name
          · subst hqn
            right
            unfold ProcessManager.depsReadyB
            rw [mfind_mset_self]
            exact check_deps_mono pm _ info.config hmono hd
          · left
            rw [runningB_iff] at hq ⊢
            obtain ⟨i, hfi, hsi⟩ := hq
            rw [mfind_mset_ne _ _ _ _ hqn] at hfi
            exact ⟨i, hfi, hsi⟩

/-- One `start_all` pass satisfies `Evolves`: it only starts processes it
observed in `CREATED`. -/
theorem evolves_pass (okF : String → Bool) (pidF : String → Nat) :
    ∀ (names : List String) (pm : ProcessManager),
      Evolves pm (pm.start_all_pass names okF pidF).2 := by
  intro names
  induction names with
  | nil =>
    intro pm
    exact evolves_refl pm
  | cons n rest ih =>
    intro pm
    unfold ProcessManager.start_all_pass
    cases hf : mfind pm.processes n with
    | none =>
      exact ih pm
    | some info =>
      show Evolves pm
        ((if info.state = ProcessState.CREATED ∧
              pm.check_dependencies_ready info.config = true then
            (true, ((pm.start_process n (okF n) (pidF n)).2.start_all_pass rest okF pidF).2)
          else pm.start_all_pass rest okF pidF)).2
      by_cases hg : info.state = ProcessState.CREATED ∧
          pm.check_dependencies_ready info.config = true
      · rw [if_pos hg]
        exact evolves_trans _ _ _
          (evolves_start pm n (okF n) (pidF n)
            (fun i hi => by rw [hf] at hi; cases hi; exact hg.1))
          (ih _)
      · rw [if_neg hg]
        exact ih pm

/-- The fueled `start_all` loop satisfies `Evolves`. -/
theorem evolves_loop (okF : String → Bool) (pidF : String → Nat) :
    ∀ (fuel : Nat) (pm : ProcessManager),
      Evolves pm (ProcessManager.start_all_loop fuel pm okF pidF) := by
  intro fuel
  induction fuel with
  | zero =>
    intro pm
    exact evolves_refl pm
  | succ k ih =>
    intro pm
    unfold ProcessManager.start_all_loop
    by_cases hp : (pm.start_all_pass (pm.processes.map Prod.fst) okF pidF).1 = true
    · rw [if_pos hp]
      exact evolves_trans _ _ _ (evolves_pass okF pidF _ pm) (ih _)
    · rw [if_neg hp]
      exact evolves_pass okF pidF _ pm

/-! Claim theorems. -/

/-- Claim C1 (code bug): the claim says `restart_process` increments
`restart_count` by one, so a crashing process with `auto_restart = true` and
`max_restart_attempts = 2` ends terminally `Crashed` with
`restart_count = 2`.  Evaluating the embedded code on that exact scenario
shows otherwise: no code path ever writes `restart_count`, so after a start
and three crash-handler invocations the record's `restart_count` is still
`0` and the process is `RUNNING` again (the restart loop never exhausts),
and a single `restart_process` call also leaves the count at `0`. -/
theorem claim_C1_restart_count_never_incremented :
    pmX1.restartCountOf "X" = some 0 ∧
    (pmX1.restart_process "X" true 9).2.restartCountOf "X" = some 0 ∧
    pmX4.stateOf "X" = some ProcessState.RUNNING ∧
    pmX4.restartCountOf "X" = some 0 := by
  decide

/-- Claim C2 counterexample: registering a config whose `depends_on` names
the unknown process `ghost` does not fail — `register_process` returns
`true` and the process is added to the table, contradicting the claim that
such a registration is rejected. -/
theorem claim_C2_counterexample :
    (ProcessManager.fresh.register_process (testConfig "dep_child" ["ghost"] true 3)).1 = true ∧
    mfind (ProcessManager.fresh.register_process
      (testConfig "dep_child" ["ghost"] true 3)).2.processes "dep_child" ≠ none := by
  decide

/-- Claim C2 (amended): `register_process` does not inspect `depends_on`; a
config with an unknown dependency registers successfully (when its name is
fresh) and lands in state `Created`, and it is `start_process` that then
fails — the dependency check cannot pass — leaving the record `Created`. -/
theorem claim_C2_amended_dependency_check_deferred_to_start (pm : ProcessManager)
    (c : ProcessConfig) (d : String) (ok : Bool) (pid : Nat)
    (hname : mfind pm.processes c.name = none)
    (hd : d ∈ c.depends_on)
    (hdu : mfind pm.processes d = none) :
    (pm.register_process c).1 = true ∧
    (pm.register_process c).2.stateOf c.name = some ProcessState.CREATED ∧
    ((pm.register_process c).2.start_process c.name ok pid).1 = false ∧
    ((pm.register_process c).2.start_process c.name ok pid).2.stateOf c.name =
      some ProcessState.CREATED := by
  have hreg : pm.register_process c =
      (true, ⟨mset pm.processes c.name
        ⟨c, ProcessState.CREATED, 0, 0, ""⟩⟩) := by
    simp [ProcessManager.register_process, hname]
  rw [hreg]
  have hfind : mfind (mset pm.processes c.name
      (⟨c, ProcessState.CREATED, 0, 0, ""⟩ : ProcessInfo)) c.name =
      some ⟨c, ProcessState.CREATED, 0, 0, ""⟩ :=
    mfind_mset_self _ _ _
  have hcheck : (ProcessManager.mk (mset pm.processes c.name
      ⟨c, ProcessState.CREATED, 0, 0, ""⟩)).check_dependencies_ready c = false := by
    rw [check_deps_eq_all]
    have hrd : (ProcessManager.mk (mset pm.processes c.name
        ⟨c, ProcessState.CREATED, 0, 0, ""⟩)).runningB d = false := by
      unfold ProcessManager.runningB
      by_cases hdc : d = c.name
      · subst hdc
        rw [mfind_mset_self]
        simp
      · rw [mfind_mset_ne _ _ _ _ hdc, hdu]
    cases hall : c.depends_on.all
        (fun x => (ProcessManager.mk (mset pm.processes c.name
          ⟨c, ProcessState.CREATED, 0, 0, ""⟩)).runningB x) with
    | false => rfl
    | true =>
      rw [List.all_eq_true] at hall
      have hcontra := hall d hd
      rw [hrd] at hcontra
      exact absurd hcontra (by simp)
  have hstart := start_process_deps_not_ready _ c.name ok pid _ hfind hcheck
  refine ⟨rfl, ?_, ?_, ?_⟩
  · unfold ProcessManager.stateOf
    rw [hfind]
    rfl
  · rw [hstart]
  · rw [hstart]
    unfold ProcessManager.stateOf
    rw [hfind]
    rfl

/-- Claim C2 amended witness: the amended theorem applied to the concrete
`dep_child`/`ghost` scenario. -/
theorem claim_C2_amended_witness :
    ((ProcessManager.fresh.register_process (testConfig "dep_child" ["ghost"] true 3)).1 = true ∧
    (ProcessManager.fresh.register_process
      (testConfig "dep_child" ["ghost"] true 3)).2.stateOf "dep_child" =
        some ProcessState.CREATED ∧
    ((ProcessManager.fresh.register_process
      (testConfig "dep_child" ["ghost"] true 3)).2.start_process "dep_child" true 1).1 = false ∧
    ((ProcessManager.fresh.register_process
      (testConfig "dep_child" ["ghost"] true 3)).2.start_process "dep_child" true 1).2.stateOf
        "dep_child" = some ProcessState.CREATED) :=
  claim_C2_amended_dependency_check_deferred_to_start ProcessManager.fresh
    (testConfig "dep_child" ["ghost"] true 3) "ghost" true 1 rfl (by decide) rfl

/-- Claim C3 (code bug): the claim says every envelope satisfying `validate`
round-trips through decode and encode.  Evaluating the embedded code at a
concrete validated envelope shows `from_json` (a stub that ignores its
input) returns a different envelope, whose re-encoding also differs from the
original encoding. -/
theorem claim_C3_decode_stub_breaks_roundtrip :
    MessageValidator.validate_message sample_msg = none ∧
    Message.from_json (Message.to_json sample_msg) ≠ sample_msg ∧
    Message.to_json (Message.from_json (Message.to_json sample_msg)) ≠
      Message.to_json sample_msg := by
  decide

/-- Claim C4 counterexample: for a concrete envelope the bytes the Stdio
channel sends differ from the specification's wire format with an unquoted
`type` ordinal — the source writes `"type":"0"`, not `"type":0`. -/
theorem claim_C4_counterexample :
    StdioChannel.send_line sample_msg ≠ encode_spec sample_msg := by
  decide

/-- Claim C4 (amended): for every envelope the encoder emits
newline-terminated JSON with the fields in the claimed order, `data` inlined
as a raw JSON value, and the `type` field carrying the integer ordinal of
the kind wrapped in double quotes (`"type":"<int>"` rather than the claimed
unquoted `"type":<int>`); the ordinal mapping is Command=0, Response=1,
Event=2, Heartbeat=3, Shutdown=4, Error=5. -/
theorem claim_C4_amended_type_ordinal_quoted (m : Message) :
    StdioChannel.send_line m = encode_spec_quoted m ∧
    MessageType.toNat MessageType.COMMAND = 0 ∧ MessageType.toNat MessageType.RESPONSE = 1 ∧
    MessageType.toNat MessageType.EVENT = 2 ∧ MessageType.toNat MessageType.HEARTBEAT = 3 ∧
    MessageType.toNat MessageType.SHUTDOWN = 4 ∧ MessageType.toNat MessageType.ERROR = 5 := by
  refine ⟨?_, rfl, rfl, rfl, rfl, rfl, rfl⟩
  apply String.ext
  simp [StdioChannel.send_line, Message.to_json, encode_spec_quoted, jfield, jstr,
    String.intercalate, String.intercalate.go, String.data_append, List.append_assoc]

/-- Claim C5 counterexample: `p` is `RUNNING`, yet `start_process("p")`
succeeds and spawns a new child (the recorded pid changes to the new
child's), contradicting the claim that it fails without spawning. -/
theorem claim_C5_counterexample :
    pmP1.stateOf "p" = some ProcessState.RUNNING ∧
    (pmP1.start_process "p" true 2).1 = true ∧
    (pmP1.start_process "p" true 2).2.pidOf "p" = some 2 := by
  decide

/-- Claim C5 (amended): `start_process` never consults the process's own
state.  For any registered process whose dependency check passes — whatever
its current state, including `Running` — the call returns the spawn outcome,
and on a successful spawn the record is `RUNNING` with the fresh pid. -/
theorem claim_C5_amended_no_state_guard (pm : ProcessManager) (name : String)
    (i : ProcessInfo) (ok : Bool) (pid : Nat)
    (hfound : mfind pm.processes name = some i)
    (hdeps : pm.check_dependencies_ready i.config = true) :
    (pm.start_process name ok pid).1 = ok ∧
    (ok = true →
      (pm.start_process name ok pid).2.stateOf name = some ProcessState.RUNNING ∧
      (pm.start_process name ok pid).2.pidOf name = some pid) := by
  cases ok with
  | true =>
    rw [start_process_spawn_ok pm name pid i hfound hdeps]
    refine ⟨rfl, fun _ => ⟨?_, ?_⟩⟩
    · unfold ProcessManager.stateOf
      rw [mfind_mset_self]
      rfl
    · unfold ProcessManager.pidOf
      rw [mfind_mset_self]
      rfl
  | false =>
    rw [start_process_spawn_fail pm name pid i hfound hdeps]
    exact ⟨rfl, fun h => absurd h (by simp)⟩

/-- Claim C5 amended witness: the amended theorem applied to the concrete
already-running process `p`. -/
theorem claim_C5_amended_witness :
    ((pmP1.start_process "p" true 2).1 = true ∧
    (true = true →
      (pmP1.start_process "p" true 2).2.stateOf "p" = some ProcessState.RUNNING ∧
      (pmP1.start_process "p" true 2).2.pidOf "p" = some 2)) :=
  claim_C5_amended_no_state_guard pmP1 "p"
    ⟨testConfig "p" [] true 3, ProcessState.RUNNING, 1, 0, ""⟩ true 2 (by decide) (by decide)

/-- Claim C6: no process enters `Running` before all its dependencies are
`Running`.  First conjunct: if a single `start_process` step takes `p` from
not-`Running` to `Running`, then `p`'s dependency check already held in the
pre-state.  Second conjunct: if `start_all` takes `q` from not-`Running` to
`Running`, `q`'s dependency check holds in the resulting state (start order
respects dependencies and `start_all` never demotes a `Running` process). -/
theorem claim_C6_running_requires_deps_running (pm : ProcessManager) (name : String)
    (ok : Bool) (pid : Nat) (okF : String → Bool) (pidF : String → Nat) (p q : String) :
    (pm.runningB p = false → (pm.start_process name ok pid).2.runningB p = true →
      pm.depsReadyB p = true) ∧
    (pm.runningB q = false → (pm.start_all okF pidF).runningB q = true →
      (pm.start_all okF pidF).depsReadyB q = true) := by
  constructor
  · intro hpre hpost
    cases hf : mfind pm.processes name with
    | none =>
      rw [start_process_not_found pm name ok pid hf] at hpost
      exact absurd hpost (by simp [hpre])
    | some info =>
      cases hd : pm.check_dependencies_ready info.config with
      | false =>
        rw [start_process_deps_not_ready pm name ok pid info hf hd] at hpost
        exact absurd hpost (by simp [hpre])
      | true =>
        by_cases hp : p = name
        · subst hp
          unfold ProcessManager.depsReadyB
          rw [hf]
          exact hd
        · cases ok with
          | true =>
            rw [start_process_spawn_ok pm name pid info hf hd] at hpost
            rw [runningB_iff] at hpost
            obtain ⟨i, hfi, hsi⟩ := hpost
            rw [mfind_mset_ne _ _ _ _ hp] at hfi
            exact absurd ((runningB_iff pm p).mpr ⟨i, hfi, hsi⟩) (by simp [hpre])
          | false =>
            rw [start_process_spawn_fail pm name pid info hf hd] at hpost
            rw [runningB_iff] at hpost
            obtain ⟨i, hfi, hsi⟩ := hpost
            rw [mfind_mset_ne _ _ _ _ hp] at hfi
            exact absurd ((runningB_iff pm p).mpr ⟨i, hfi, hsi⟩) (by simp [hpre])
  · intro hpre hpost
    rcases (evolves_loop okF pidF (pm.processes.length + 1) pm).2.2 q hpost with h | h
    · rw [hpre] at h
      exact absurd h (by simp)
    · exact h

/-- Claim C6 witness: in the two-process scenario (`B` depends on `A`),
`start_all` takes `B` from not-`Running` to `Running`, and the theorem
yields that `B`'s dependency check holds afterwards. -/
theorem claim_C6_witness :
    pmABpost.depsReadyB "B" = true :=
  (claim_C6_running_requires_deps_running pmAB "A" true 1 (fun _ => true) (fun _ => 7)
    "B" "B").2 (by decide) (by decide)

/-- Claim C7: the validator's errors characterize the inputs in priority
order — the source-empty error fires iff `source` is empty; the
target-empty error iff `target` is empty and the source check passed; the
command-empty error iff `command` is empty and both prior checks passed;
and the payload error iff all three strings are non-empty and the payload
fails `is_safe_json` (the size bound; the announced JSON-validity check is
a no-op in the source, so size is the only payload condition). -/
theorem claim_C7_validate_error_priority (m : Message) :
    (MessageValidator.validate_message m = some "Source process is empty" ↔
      m.source_process = "") ∧
    (MessageValidator.validate_message m = some "Target process is empty" ↔
      (m.source_process ≠ "" ∧ m.target_process = "")) ∧
    (MessageValidator.validate_message m = some "Command is empty" ↔
      (m.source_process ≠ "" ∧ m.target_process ≠ "" ∧ m.command = "")) ∧
    (MessageValidator.validate_message m = some "Invalid JSON data" ↔
      (m.source_process ≠ "" ∧ m.target_process ≠ "" ∧ m.command ≠ "" ∧
        MessageValidator.is_safe_json m.data = false)) := by
  unfold MessageValidator.validate_message
  by_cases hs : m.source_process = "" <;>
    by_cases ht : m.target_process = "" <;>
      by_cases hc : m.command = "" <;>
        by_cases hj : MessageValidator.is_safe_json m.data <;>
          simp [hs, ht, hc, hj]

/-- Claim C8: with `source`, `target`, `command` non-empty, a payload of
exactly 1 MiB (1048576 bytes) validates and a payload of 1 MiB plus one
byte is rejected with the payload error. -/
theorem claim_C8_payload_boundary (m₁ m₂ : Message)
    (h₁ : m₁.source_process ≠ "") (h₂ : m₁.target_process ≠ "") (h₃ : m₁.command ≠ "")
    (h₄ : m₂.source_process ≠ "") (h₅ : m₂.target_process ≠ "") (h₆ : m₂.command ≠ "")
    (hb₁ : m₁.data.utf8ByteSize = 1048576) (hb₂ : m₂.data.utf8ByteSize = 1048577) :
    MessageValidator.validate_message m₁ = none ∧
    MessageValidator.validate_message m₂ = some "Invalid JSON data" := by
  constructor <;>
    simp [MessageValidator.validate_message, MessageValidator.is_safe_json,
      h₁, h₂, h₃, h₄, h₅, h₆, hb₁, hb₂]

/-- Claim C8 witness: the boundary theorem applied to concrete payloads of
1048576 and 1048577 bytes. -/
theorem claim_C8_witness :
    MessageValidator.validate_message (sized_msg 1048576) = none ∧
    MessageValidator.validate_message (sized_msg 1048577) = some "Invalid JSON data" :=
  claim_C8_payload_boundary (sized_msg 1048576) (sized_msg 1048577) (by decide) (by decide)
    (by decide) (by decide) (by decide) (by decide)
    (by simp [sized_msg, bigdata_utf8ByteSize]) (by simp [sized_msg, bigdata_utf8ByteSize])

/-- Claim C9: after registering `h₁` then `h₂` under the same command, a
message with that command invokes exactly `h₁` then `h₂` in registration
order, and a message whose command has no registered handler invokes
nothing. -/
theorem claim_C9_dispatch_in_registration_order {α : Type} (h₁ h₂ : α) (k : String)
    (m m' : Message) (hm : m.command = k) (hm' : m'.command ≠ k) :
    ((MessageRouter.empty.register_handler k h₁).register_handler k h₂).route_message m
      = [(h₁, m), (h₂, m)] ∧
    ((MessageRouter.empty.register_handler k h₁).register_handler k h₂).route_message m'
      = [] := by
  constructor <;>
    simp [MessageRouter.empty, MessageRouter.register_handler, addHandler,
      MessageRouter.route_message, findHandlers, hm, hm', Ne.symm hm']

/-- Claim C9 witness: the dispatch theorem applied to two concrete handlers
on command `ping` and a `pong` message with no handler. -/
theorem claim_C9_witness :
    ((MessageRouter.empty.register_handler "ping" 1).register_handler "ping" 2).route_message
      ping_msg = [(1, ping_msg), (2, ping_msg)] ∧
    ((MessageRouter.empty.register_handler "ping" 1).register_handler "ping" 2).route_message
      pong_msg = [] :=
  claim_C9_dispatch_in_registration_order 1 2 "ping" ping_msg pong_msg rfl (by decide)

/-- Claim C10: `get_process_state` on a name absent from the process table
returns `Stopped` rather than signalling an error, making an unknown
process indistinguishable from a cleanly stopped one at this accessor. -/
theorem claim_C10_unknown_process_reads_stopped (pm : ProcessManager) (name : String)
    (h : mfind pm.processes name = none) :
    pm.get_process_state name = ProcessState.STOPPED := by
  unfold ProcessManager.get_process_state
  rw [h]

/-- Claim C10 witness: the accessor theorem applied to a fresh manager and
the never-registered name `ghost`. -/
theorem claim_C10_witness :
    ProcessManager.fresh.get_process_state "ghost" = ProcessState.STOPPED :=
  claim_C10_unknown_process_reads_stopped ProcessManager.fresh "ghost" rfl

end Neuro
